import Mathlib

/-!
Verification development for the DECnet NSP input path (`dn_nsp_in.c`).

The definitions below are a shallow embedding of the receive-side code:
machine integers are `Nat` with explicit `% 2^w` where wraparound matters,
wire frames are lists of byte values (masked `% 256` at each read), the
per-connection control block `dn_scp` together with the relevant `struct sock`
fields is the `Scp` structure, and every externally visible action (sending an
acknowledgment, invoking the outbound sender, waking the application, ...) is
recorded as an event in an output list.  External collaborators (receive-buffer
admission, congestion test, transmit-queue pruning, the delayed-ack predicate)
are inputs gathered in the `Ext` structure.
-/

namespace DECnetNSP

/-- Modelled from the spec: reason code "ok / no-reply" (§6; the numeric
reason-code table lives in a protocol header that is not among the sources). -/
def NSP_REASON_OK : Nat := 0

/-- Modelled from the spec: reason code "no-resources" (§6). -/
def NSP_REASON_NR : Nat := 1

/-- Modelled from the spec: reason code "destination-id-error"
(invalid destination end user, §6). -/
def NSP_REASON_ID : Nat := 4

/-- Modelled from the spec: reason code "source-id-error" (§6). -/
def NSP_REASON_US : Nat := 7

/-- Modelled from the spec: reason code "no-link error" (§6). -/
def NSP_REASON_NL : Nat := 41

/-- Modelled from the spec: reason code "disconnect-complete" (§6). -/
def NSP_REASON_DC : Nat := 42

/-- Modelled from the spec: reason code "format-error" (image data field
overflow, called NSP_REASON_IO in the headers; §6). -/
def NSP_REASON_IOV : Nat := 43

/-- Modelled from the spec: message-type byte of a disconnect-initiate. -/
def NSP_DISCINIT : Nat := 0x38

/-- Modelled from the spec: message-type byte of a disconnect-confirm. -/
def NSP_DISCCONF : Nat := 0x48

/-- Modelled from the spec: services-field flow-control mode "none". -/
def NSP_FC_NONE : Nat := 0x00

/-- Modelled from the spec: services-field flow-control mode
"segment count" (segment-count flow control, §4.6). -/
def NSP_FC_SCMC : Nat := 0x04

/-- Modelled from the spec: mask of the flow-control mode bits in the
services field. -/
def NSP_FC_MASK : Nat := 0x0c

/-- Modelled from the spec: mask of the routing-header packet-format bits. -/
def DN_RT_PKT_MSK : Nat := 0x06

/-- Modelled from the spec: routing-header value for the short packet format. -/
def DN_RT_PKT_SHORT : Nat := 0x02

/-- Modelled from the spec: Intra-Ethernet bit of the routing header. -/
def DN_RT_F_IE : Nat := 0x20

/-- Modelled from the spec: return-to-sender bit of the routing header. -/
def DN_RT_F_RTS : Nat := 0x10

/-- Modelled from the spec: largest NSP data header (11 bytes). -/
def DN_MAX_NSP_DATA_HEADER : Nat := 11

/-- Modelled from the spec: both shutdown bits (RCV and SEND). -/
def SHUTDOWN_MASK : Nat := 3

/-- Modelled from the spec: errno for a refused connection. -/
def ECONNREFUSED : Nat := 111

/-- Modelled from the spec: menu/version bit "access data present" (§4.4). -/
def DN_MENUVER_ACC : Nat := 0x01

/-- Modelled from the spec: menu/version bit "user data present" (§4.4). -/
def DN_MENUVER_USR : Nat := 0x02

/-- Modelled from the spec: pending-work kind used when a connect-confirm is
accepted (dn_nsp_schedule_pending tag). -/
def DN_PEND_IDLE : Nat := 0

/-- Modelled from the spec: pending-work kind used when local flow control
flips to DONT-SEND (dn_nsp_schedule_pending tag). -/
def DN_PEND_SW : Nat := 2

/-- Modelled from the spec: clock ticks per second (kernel HZ). -/
def HZ : Nat := 100

/-- ACKDELAY from dn_nsp_in.c: three seconds worth of ticks. -/
def ACKDELAY : Nat := 3 * HZ

/-- Modelled from the spec: §4.1 `after(a,b)` — true when `a` is strictly
ahead of `b` in the 12-bit cyclic sequence space (cyclic distance from `b`
to `a` is nonzero and below the half range 2048).  The helper itself lives
in a protocol header that is not among the sources. -/
def dn_after (a b : Nat) : Bool :=
  decide (0 < (a % 4096 + 4096 - b % 4096) % 4096
            ∧ (a % 4096 + 4096 - b % 4096) % 4096 < 2048)

/-- Modelled from the spec: §4.1 `next(expected, n)` — true iff `n` equals the
next-expected 12-bit sequence number exactly (both compared modulo 2^12). -/
def seq_next (expected n : Nat) : Bool :=
  n % 4096 == expected % 4096

/-- Modelled from the spec: §4.1 `advance` — increment a 12-bit sequence
counter modulo 2^12. -/
def seq_add (seqv off : Nat) : Nat :=
  (seqv + off) % 4096

/-- The connection states of §4.2 (`enum dn_states`, restricted to the
members this file mentions). -/
inductive DnState where
  | CI | CD | CC | RUN | DI | DIC | DR | DRC | CN | RJ | NR | NC | DN | Other
deriving DecidableEq, Repr

/-- Flow-control switch positions (DN_SEND / DN_DONTSEND). -/
inductive FlowCtl where
  | send | dontSend
deriving DecidableEq, Repr

/-- The `sk->sk_state` values this file assigns (TCP_ESTABLISHED /
TCP_CLOSE, plus a catch-all for any other initial value). -/
inductive SkState where
  | established | close | other
deriving DecidableEq, Repr

/-- The `sk->sk_socket->state` values this file reads or assigns. -/
inductive SockState where
  | unconnected | connected | disconnecting | other
deriving DecidableEq, Repr

/-- Externally visible actions of the receive path, in emission order. -/
inductive Ev where
  /-- `sk->sk_data_ready` after a successful receive-queue insert. -/
  | dataReady
  /-- `sk->sk_state_change` notification to the application layer. -/
  | stateChange
  /-- `dn_nsp_send_oth_ack`: emit an other-data acknowledgment. -/
  | othAck
  /-- `dn_nsp_send_data_ack`: emit a data acknowledgment. -/
  | dataAck
  /-- `dn_nsp_output`: invoke the outbound-send collaborator. -/
  | output
  /-- `dn_nsp_schedule_pending` with the given work tag. -/
  | schedPending (tag : Nat)
  /-- `dn_nsp_send_disc` with message type and reason code. -/
  | sendDisc (msgflg : Nat) (reason : Nat)
  /-- `dn_nsp_check_xmit_queue`: prune the outbound queue of a channel
  (`oth = true` for the other-data channel) up to the given ack value. -/
  | prune (oth : Bool) (ack : Nat)
deriving DecidableEq, Repr

/-- The per-connection state: the `dn_scp` fields this file touches plus the
relevant `struct sock` fields (receive queues are kept as lists of payload
byte lists; `acceptQ` stands for the listener backlog). -/
structure Scp where
  state : DnState
  numdat_rcv : Nat
  numoth_rcv : Nat
  ackrcv_dat : Nat
  ackrcv_oth : Nat
  flowrem_sw : FlowCtl
  flowloc_sw : FlowCtl
  flowrem_dat : Nat
  flowrem_oth : Nat
  services_rem : Nat
  info_rem : Nat
  segsize_rem : Nat
  max_window : Nat
  addrloc : Nat
  addrrem : Nat
  conntimer : Nat
  persist : Nat
  persistIsDestroy : Bool
  ackdelay : Nat
  other_report : Nat
  conndata_optl : Nat
  conndata : List Nat
  discdata_status : Nat
  discdata_optl : Nat
  discdata : List Nat
  skState : SkState
  skErr : Nat
  skShutdown : Nat
  skDead : Bool
  sockState : SockState
  rcvQueue : List (List Nat)
  othQueue : List (List Nat)
  acceptQ : List (List Nat)
deriving DecidableEq, Repr

/-- The `dn_skb_cb` control-block fields read by the routines below. -/
structure Cb where
  nsp_flags : Nat
  rt_flags : Nat
  src_port : Nat
  dst_port : Nat
deriving DecidableEq, Repr

/-- An inbound frame as it reaches `dn_nsp_backlog_rcv`: its control block
and the not-yet-consumed body bytes. -/
structure Frame where
  cb : Cb
  data : List Nat
deriving DecidableEq, Repr

/-- Inputs from external collaborators and global configuration:
`segbufsize` is `decnet_segbufsize`, `no_fc_max_cwnd` is
`decnet_no_fc_max_cwnd`, `outgoingTimer` is `decnet_outgoing_timer * HZ`,
`persistTime` the value of `dn_nsp_persist`, `acceptqFull` the result of
`sk_acceptq_is_full`, `admitOk` whether `dn_queue_skb`'s filter and memory
checks pass, `congested` the result of `dn_congested`, `xmitWakeD`/`xmitWakeO`
the return values of `dn_nsp_check_xmit_queue` per channel, and `sendackP`
the should-send-immediate-ack predicate `sendack` on a sequence number. -/
structure Ext where
  segbufsize : Nat
  no_fc_max_cwnd : Nat
  outgoingTimer : Nat
  persistTime : Nat
  acceptqFull : Bool
  admitOk : Bool
  congested : Bool
  xmitWakeD : Bool
  xmitWakeO : Bool
  sendackP : Nat → Bool

/-- Embedding of `dn_ack`: classify one 16-bit acknowledgment sub-field (the
cross-subchannel bit already flipped by the caller for other-data and
link-service frames) and advance the matching send-window cursor when the
acknowledged number is strictly newer.  `& NSP_SG_MASK` is `% 4096`. -/
def dn_ack (E : Ext) (st : Scp) (ack : Nat) : Scp × List Ev :=
  let type := (ack >>> 12) &&& 0x3
  let step : Scp × Bool × List Ev :=
    if type = 0 then
      if dn_after ack st.ackrcv_dat then
        ({ st with ackrcv_dat := ack % 4096 }, E.xmitWakeD, [Ev.prune false ack])
      else (st, false, [])
    else if type = 2 then
      if dn_after ack st.ackrcv_oth then
        ({ st with ackrcv_oth := ack % 4096 }, E.xmitWakeO, [Ev.prune true ack])
      else (st, false, [])
    else (st, false, [])
  (step.1, step.2.2 ++ if step.2.1 ∧ ¬ step.1.skDead then [Ev.stateChange] else [])

/-- Embedding of `dn_process_ack`: strip up to two leading 16-bit sub-fields
whose top bit is set, hand each non-NAK one to `dn_ack` (cross-channel bit
flipped when `oth`), and report the new state, the remaining bytes, the
number of bytes consumed, and the emitted events. -/
def dn_process_ack (E : Ext) (st : Scp) (data : List Nat) (oth : Bool) :
    Scp × List Nat × Nat × List Ev :=
  match data with
  | b0 :: b1 :: rest =>
    let w1 := b0 % 256 + 256 * (b1 % 256)
    if w1 &&& 0x8000 ≠ 0 then
      let s1 :=
        if w1 &&& 0x4000 = 0 then
          dn_ack E st (if oth then w1 ^^^ 0x2000 else w1)
        else (st, [])
      match rest with
      | c0 :: c1 :: rest2 =>
        let w2 := c0 % 256 + 256 * (c1 % 256)
        if w2 &&& 0x8000 ≠ 0 then
          let s2 :=
            if w2 &&& 0x4000 = 0 then
              dn_ack E s1.1 (if oth then w2 ^^^ 0x2000 else w2)
            else (s1.1, [])
          (s2.1, rest2, 4, s1.2 ++ s2.2)
        else (s1.1, rest, 2, s1.2)
      | _ => (s1.1, rest, 2, s1.2)
    else (st, data, 0, [])
  | _ => (st, data, 0, [])

/-- Embedding of `dn_check_idf`: one bounded image-data field, a length byte
followed by that many bytes; fails when the length byte exceeds `max` or the
remaining bytes (`flen > *len` after the `(*len)--`), otherwise skips the
field and returns the rest of the payload. -/
def dn_check_idf (max : Nat) (l : List Nat) : Option (List Nat) :=
  match l with
  | [] => none
  | flen :: rest =>
    if flen % 256 > max then none
    else if flen % 256 > rest.length then none
    else some (rest.drop (flen % 256))

/-- Modelled from the spec: the username-field parser
(`dn_username2sockaddr`, defined in a source file that is not included).
Per §4.4/§6 a username field is a format byte and a type byte; format 0
carries only an object number in the type byte, the name-carrying formats
(1 with a 16-byte maximum, 2 and 4 with a 12-byte maximum after skipping a
4- or 8-byte node address) follow with a one-byte length prefix and that many
name bytes, and parsing fails when the field is truncated or the length byte
exceeds its maximum or the remaining payload.  Returns the number of bytes
consumed and the format byte (the `type` out-parameter). -/
def dn_username2sockaddr (data : List Nat) : Option (Nat × Nat) :=
  match data with
  | fmtB :: _typeB :: rest =>
    let fmt := fmtB % 256
    if fmt = 0 then some (2, 0)
    else if fmt = 1 ∨ fmt = 2 ∨ fmt = 4 then
      let namel := if fmt = 1 then 16 else 12
      let skipped := if fmt = 1 then 0 else if fmt = 2 then 4 else 8
      match rest.drop skipped with
      | lenB :: name =>
        let l := lenB % 256
        if l > namel ∨ l > name.length then none
        else some (2 + skipped + 1 + l, fmt)
      | [] => none
    else none
  | _ => none

/-- The reason column of `ci_err_table`: reason codes indexed by the `err`
counter of `dn_find_listener` (0 means "don't reply"). -/
def ciErrReason : List Nat :=
  [NSP_REASON_OK, NSP_REASON_ID, NSP_REASON_ID, NSP_REASON_US,
   NSP_REASON_OK, NSP_REASON_OK, NSP_REASON_IOV, NSP_REASON_IOV]

/-- Embedding of `dn_find_listener`: validate an inbound connect-request
frame (the 9-byte `nsp_conn_init_msg` header, then destination username,
source username, menu/version byte, and the optional access and user-data
fields).  On failure, returns the reason code of the `ci_err_table` row
selected by the running `err` counter; on success the (external) listener
lookup would be performed, which this embedding reports as `ok`. -/
def dn_find_listener (frame : List Nat) : Except Nat Unit :=
  if frame.length < 9 then Except.error (ciErrReason.getD 0 0)
  else
    let payload := frame.drop 9
    match dn_username2sockaddr payload with
    | none => Except.error (ciErrReason.getD 1 0)
    | some dst =>
      if dst.2 > 1 then Except.error (ciErrReason.getD 2 0)
      else
        let p2 := payload.drop dst.1
        match dn_username2sockaddr p2 with
        | none => Except.error (ciErrReason.getD 3 0)
        | some src =>
          match p2.drop src.1 with
          | [] => Except.error (ciErrReason.getD 4 0)
          | mv :: p4 =>
            let menuver := mv % 256
            if menuver &&& (DN_MENUVER_ACC ||| DN_MENUVER_USR) ≠ 0 ∧ p4.length < 1 then
              Except.error (ciErrReason.getD 5 0)
            else
              let acc : Option (List Nat) :=
                if menuver &&& DN_MENUVER_ACC ≠ 0 then
                  ((dn_check_idf 39 p4).bind (dn_check_idf 39)).bind (dn_check_idf 39)
                else some p4
              match acc with
              | none => Except.error (ciErrReason.getD 6 0)
              | some p5 =>
                if menuver &&& DN_MENUVER_USR ≠ 0 then
                  match dn_check_idf 16 p5 with
                  | none => Except.error (ciErrReason.getD 7 0)
                  | some _ => Except.ok ()
                else Except.ok ()

/-- The connect-confirm / promotion path-quality test: short routing header
or Intra-Ethernet bit clear, in which case the remote segment size reverts
to the segment-buffer-size parameter. -/
def pathRevert (rt : Nat) : Bool :=
  (rt &&& DN_RT_PKT_MSK == DN_RT_PKT_SHORT) || (rt &&& DN_RT_F_IE == 0)

/-- Embedding of `dn_nsp_conn_init` on the listening socket: drop when the
accept queue is full, otherwise queue the request and notify. -/
def dn_nsp_conn_init (E : Ext) (st : Scp) (payload : List Nat) : Scp × List Ev :=
  if E.acceptqFull then (st, [])
  else ({ st with acceptQ := st.acceptQ ++ [payload] }, [Ev.stateChange])

/-- The optional-data capture step shared by `dn_nsp_conn_conf` (connect
data) and `dn_nsp_disc_init` (disconnect data): a one-byte length that must
be at most 16 and at most the remaining length (which still counts the
length byte itself), followed by that many data bytes. -/
def optData (rest : List Nat) : Option (Nat × List Nat) :=
  match rest with
  | d :: dtl =>
    if d % 256 ≤ 16 ∧ d % 256 ≤ rest.length then some (d % 256, dtl.take (d % 256))
    else none
  | [] => none

/-- Embedding of `dn_nsp_conn_conf`: on a connect-confirm of at least 4 bytes
while in CI or CD, record the negotiated capabilities, promote to RUN,
apply the path-quality segment-size reversion and the no-flow-control window
override, capture the bounded optional connect data, and notify. -/
def dn_nsp_conn_conf (E : Ext) (st : Scp) (cb : Cb) (data : List Nat) : Scp × List Ev :=
  match data with
  | s :: i :: z0 :: z1 :: rest =>
    let services := s % 256
    let info := i % 256
    let segsize := z0 % 256 + 256 * (z1 % 256)
    if st.state = DnState.CI ∨ st.state = DnState.CD then
      let st1 := { st with persist := 0, conntimer := 0, addrrem := cb.src_port,
                           skState := SkState.established, state := DnState.RUN,
                           services_rem := services, info_rem := info,
                           segsize_rem := segsize }
      let st2 := if pathRevert cb.rt_flags then
                   { st1 with segsize_rem := E.segbufsize - (DN_MAX_NSP_DATA_HEADER + 6) }
                 else st1
      let st3 := if st2.services_rem &&& NSP_FC_MASK = NSP_FC_NONE then
                   { st2 with max_window := E.no_fc_max_cwnd }
                 else st2
      let st4 :=
        match optData rest with
        | some dl => { st3 with conndata_optl := dl.1, conndata := dl.2 }
        | none => st3
      (st4, [Ev.schedPending DN_PEND_IDLE] ++
              if ¬ st4.skDead then [Ev.stateChange] else [])
    else (st, [])
  | _ => (st, [])

/-- Embedding of `dn_nsp_conn_ack`: while in CI, move to CD and arm the
outgoing-connection timer. -/
def dn_nsp_conn_ack (E : Ext) (st : Scp) : Scp × List Ev :=
  if st.state = DnState.CI then
    ({ st with state := DnState.CD, persist := 0, conntimer := E.outgoingTimer }, [])
  else (st, [])

/-- The switch on `scp->state` inside `dn_nsp_disc_init`: CI and CD move to
RJ with ECONNREFUSED and a cleared connect timer, RUN moves to DN with both
shutdown bits set, DI moves to DIC, anything else is untouched. -/
def discInitStateStep (st : Scp) : Scp :=
  match st.state with
  | DnState.CI | DnState.CD =>
    { st with state := DnState.RJ, skErr := ECONNREFUSED, conntimer := 0 }
  | DnState.RUN =>
    { st with skShutdown := st.skShutdown ||| SHUTDOWN_MASK, state := DnState.DN }
  | DnState.DI => { st with state := DnState.DIC }
  | _ => st

/-- The not-dead notification step shared by `dn_nsp_disc_init` and
`dn_nsp_disc_conf`: mark a connected socket as disconnecting and emit a
state-change notification. -/
def discNotify (st : Scp) : Scp × List Ev :=
  if ¬ st.skDead then
    (if st.sockState ≠ SockState.unconnected then
       { st with sockState := SockState.disconnecting }
     else st, [Ev.stateChange])
  else (st, [])

/-- Embedding of `dn_nsp_disc_init`: on a disconnect-initiate of at least
2 bytes, capture the reason and the bounded optional data, store the frame's
source port as the remote port, close the socket, take the per-state
transition (`discInitStateStep`), notify (`discNotify`), reply with a
disconnect-confirm carrying the disconnect-complete reason when the (just
stored) remote port is nonzero, and arm the destruction timer. -/
def dn_nsp_disc_init (E : Ext) (st : Scp) (cb : Cb) (data : List Nat) : Scp × List Ev :=
  match data with
  | r0 :: r1 :: rest =>
    let reason := r0 % 256 + 256 * (r1 % 256)
    let st1 := { st with discdata_status := reason, discdata_optl := 0, discdata := [] }
    let st2 :=
      match optData rest with
      | some dl => { st1 with discdata_optl := dl.1, discdata := dl.2 }
      | none => st1
    let st3 := { st2 with addrrem := cb.src_port, skState := SkState.close }
    let step := discNotify (discInitStateStep st3)
    let evs2 := if step.1.addrrem ≠ 0 then [Ev.sendDisc NSP_DISCCONF NSP_REASON_DC] else []
    ({ step.1 with persistIsDestroy := true, persist := E.persistTime },
     step.2 ++ evs2)
  | _ => (st, [])

/-- Embedding of `dn_nsp_disc_conf`: on a disconnect-confirm of exactly
2 bytes, close the socket and take the per-state transition (CI to NR, DR to
DRC or CN depending on the reason, DI to DIC, RUN with shutdown falling
through with CC to CN), notify, and arm the destruction timer. -/
def dn_nsp_disc_conf (E : Ext) (st : Scp) (data : List Nat) : Scp × List Ev :=
  match data with
  | [r0, r1] =>
    let reason := r0 % 256 + 256 * (r1 % 256)
    let st1 := { st with skState := SkState.close }
    let st2 :=
      match st1.state with
      | DnState.CI => { st1 with state := DnState.NR }
      | DnState.DR =>
        if reason = NSP_REASON_DC then { st1 with state := DnState.DRC }
        else if reason = NSP_REASON_NL then { st1 with state := DnState.CN }
        else st1
      | DnState.DI => { st1 with state := DnState.DIC }
      | DnState.RUN =>
        { st1 with skShutdown := st1.skShutdown ||| SHUTDOWN_MASK, state := DnState.CN }
      | DnState.CC => { st1 with state := DnState.CN }
      | _ => st1
    let step := discNotify st2
    ({ step.1 with persistIsDestroy := true, persist := E.persistTime }, step.2)
  | _ => (st, [])

/-- Embedding of `dn_nsp_linkservice`: a link-service frame must be exactly
4 bytes (sequence number, flags byte, signed credit byte); any of the top
five flag bits set drops it before the sequence check.  When the other-data
sequence check accepts, the cursor advances and the 2-bit sub-type acts:
request-count adjusts the remote data credit (down only under segment-count
mode without underflow), stop-sending and resume-sending set the remote flow
switch (resume also invoking the outbound sender), and an interrupt-selector
request adds only positive credit to the other channel.  A well-formed frame
always ends by emitting an other-data acknowledgment. -/
def dn_nsp_linkservice (_E : Ext) (st : Scp) (data : List Nat) : Scp × List Ev :=
  let fctype := st.services_rem &&& NSP_FC_MASK
  match data with
  | [b0, b1, b2, b3] =>
    let segnum := b0 % 256 + 256 * (b1 % 256)
    let lsflags := b2 % 256
    let fcval := b3 % 256
    if lsflags &&& 0xf8 ≠ 0 then (st, [])
    else
      let step : Scp × List Ev :=
        if seq_next st.numoth_rcv segnum then
          let st1 := { st with numoth_rcv := seq_add st.numoth_rcv 1 }
          let act : Scp × Bool × List Ev :=
            if lsflags &&& 0x04 = 0 then
              match lsflags &&& 0x03 with
              | 0 =>
                if 128 ≤ fcval then
                  if 256 - fcval < st1.flowrem_dat ∧ fctype = NSP_FC_SCMC then
                    ({ st1 with flowrem_dat := st1.flowrem_dat - (256 - fcval) },
                     false, [])
                  else (st1, false, [])
                else if 0 < fcval then
                  ({ st1 with flowrem_dat := (st1.flowrem_dat + fcval) % 65536 },
                   true, [])
                else (st1, false, [])
              | 1 => ({ st1 with flowrem_sw := FlowCtl.dontSend }, false, [])
              | 2 => ({ st1 with flowrem_sw := FlowCtl.send }, true, [Ev.output])
              | _ => (st1, false, [])
            else
              if 0 < fcval ∧ fcval < 128 then
                ({ st1 with flowrem_oth := (st1.flowrem_oth + fcval) % 65536 },
                 true, [])
              else (st1, false, [])
          (act.1, act.2.2 ++ if act.2.1 ∧ ¬ act.1.skDead then [Ev.stateChange] else [])
        else (st, [])
      (step.1, step.2 ++ [Ev.othAck])
  | _ => (st, [])

/-- Embedding of `dn_queue_skb`: the socket-filter and receive-memory checks
are the external `admitOk` input; on success the payload joins the given queue
and the application is notified unless the socket is dead. -/
def dn_queue_skb (E : Ext) (st : Scp) (payload : List Nat) (othQ : Bool) :
    Bool × Scp × List Ev :=
  if E.admitOk then
    (true,
     if othQ then { st with othQueue := st.othQueue ++ [payload] }
     else { st with rcvQueue := st.rcvQueue ++ [payload] },
     if st.skDead then [] else [Ev.dataReady])
  else (false, st, [])

/-- Embedding of `dn_nsp_otherdata`: read the 2-byte sequence number; when it
is the next expected one and the queue admits the payload, enqueue it,
advance the other-data cursor and clear `other_report`; always emit an
other-data acknowledgment afterwards. -/
def dn_nsp_otherdata (E : Ext) (st : Scp) (data : List Nat) : Scp × List Ev :=
  match data with
  | b0 :: b1 :: rest =>
    let segnum := b0 % 256 + 256 * (b1 % 256)
    let step : Scp × List Ev :=
      if seq_next st.numoth_rcv segnum then
        let q := dn_queue_skb E st rest true
        if q.1 then
          ({ q.2.1 with numoth_rcv := seq_add q.2.1.numoth_rcv 1, other_report := 0 },
           q.2.2)
        else (q.2.1, q.2.2)
      else (st, [])
    (step.1, step.2 ++ [Ev.othAck])
  | _ => (st, [])

/-- Embedding of `dn_nsp_data`: read the 2-byte sequence number; when it is
the next expected one and the queue admits the payload, enqueue it and
advance the data cursor, then re-evaluate local congestion (flipping the
local flow switch to DONT-SEND and scheduling a flow-control notification
when congested).  An immediate data acknowledgment is sent unless the
segment was queued and the `sendack` predicate declines, in which case only
the (already armed) delayed-ack timer is refreshed. -/
def dn_nsp_data (E : Ext) (st : Scp) (data : List Nat) : Scp × List Ev :=
  match data with
  | b0 :: b1 :: rest =>
    let segnum := b0 % 256 + 256 * (b1 % 256)
    let step : Bool × Scp × List Ev :=
      if seq_next st.numdat_rcv segnum then
        let q := dn_queue_skb E st rest false
        let s2 : Bool × Scp :=
          if q.1 then (true, { q.2.1 with numdat_rcv := seq_add q.2.1.numdat_rcv 1 })
          else (false, q.2.1)
        let s3 : Scp × List Ev :=
          if s2.2.flowloc_sw = FlowCtl.send ∧ E.congested then
            ({ s2.2 with flowloc_sw := FlowCtl.dontSend }, [Ev.schedPending DN_PEND_SW])
          else (s2.2, [])
        (s2.1, s3.1, q.2.2 ++ s3.2)
      else (false, st, [])
    if step.1 && ! E.sendackP (b0 % 256 + 256 * (b1 % 256)) then
      (if step.2.1.ackdelay ≠ 0 then { step.2.1 with ackdelay := ACKDELAY }
       else step.2.1, step.2.2)
    else (step.2.1, step.2.2 ++ [Ev.dataAck])
  | _ => (st, [])

/-- Embedding of the non-control arm of `dn_nsp_backlog_rcv`: the cross
sub-channel selector (`other`) of the piggy-backed ack sub-fields. -/
def otherFlag (flags : Nat) : Bool :=
  ! ((flags &&& 0x1c == 0) || (flags == 0x04))

/-- The implicit CC-to-RUN promotion at the head of the non-control arm of
`dn_nsp_backlog_rcv`: any data or acknowledgment frame arriving while the
connection is in CC (and the socket is not dead) promotes it to RUN, with
the same path-quality segment-size reversion as connect-confirm. -/
def ccPromote (E : Ext) (st : Scp) (rt : Nat) : Scp × List Ev :=
  if st.state = DnState.CC ∧ ¬ st.skDead then
    let st1 := { st with state := DnState.RUN, skState := SkState.established }
    (if pathRevert rt then
       { st1 with segsize_rem := E.segbufsize - (DN_MAX_NSP_DATA_HEADER + 6) }
     else st1, [Ev.stateChange])
  else (st, [])

/-- Embedding of `dn_nsp_backlog_rcv`: returned frames are dropped; control
frames go to the connection state machine by sub-type; connect-acks are
special-cased; all remaining frames first may promote a CC connection to
RUN (`ccPromote`), then pass through the ack processor, and finally their
payload is dispatched to link-service, other-data, or data delivery only
while the connection is in RUN. -/
def dn_nsp_backlog_rcv (E : Ext) (st : Scp) (f : Frame) : Scp × List Ev :=
  if f.cb.rt_flags &&& DN_RT_F_RTS ≠ 0 then (st, [])
  else if f.cb.nsp_flags &&& 0x0c = 0x08 then
    match f.cb.nsp_flags &&& 0x70 with
    | 0x10 => dn_nsp_conn_init E st f.data
    | 0x60 => dn_nsp_conn_init E st f.data
    | 0x20 => dn_nsp_conn_conf E st f.cb f.data
    | 0x30 => dn_nsp_disc_init E st f.cb f.data
    | 0x40 => dn_nsp_disc_conf E st f.data
    | _ => (st, [])
  else if f.cb.nsp_flags = 0x24 then dn_nsp_conn_ack E st
  else
    let promo := ccPromote E st f.cb.rt_flags
    let pa := dn_process_ack E promo.1 f.data (otherFlag f.cb.nsp_flags)
    if f.cb.nsp_flags &&& 0x0c = 0 then
      if pa.1.state ≠ DnState.RUN then (pa.1, promo.2 ++ pa.2.2.2)
      else
        let disp : Scp × List Ev :=
          if f.cb.nsp_flags = 0x10 then dn_nsp_linkservice E pa.1 pa.2.1
          else if f.cb.nsp_flags = 0x30 then dn_nsp_otherdata E pa.1 pa.2.1
          else dn_nsp_data E pa.1 pa.2.1
        (disp.1, promo.2 ++ pa.2.2.2 ++ disp.2)
    else (pa.1, promo.2 ++ pa.2.2.2)

/-- A sample collaborator environment used to evaluate the embedding on
concrete inputs: admission always succeeds, no congestion, immediate acks. -/
def E0 : Ext := ⟨512, 8, 6000, 300, false, true, false, false, false, fun _ => true⟩

/-- A sample running connection used to evaluate the embedding on concrete
inputs. -/
def scp0 : Scp :=
  { state := DnState.RUN, numdat_rcv := 5, numoth_rcv := 3, ackrcv_dat := 10,
    ackrcv_oth := 5, flowrem_sw := FlowCtl.dontSend, flowloc_sw := FlowCtl.send,
    flowrem_dat := 2, flowrem_oth := 1, services_rem := 4, info_rem := 0,
    segsize_rem := 230, max_window := 10, addrloc := 42, addrrem := 0,
    conntimer := 0, persist := 0, persistIsDestroy := false, ackdelay := 0,
    other_report := 1, conndata_optl := 0, conndata := [],
    discdata_status := 0, discdata_optl := 0, discdata := [],
    skState := SkState.established, skErr := 0, skShutdown := 0, skDead := false,
    sockState := SockState.connected, rcvQueue := [], othQueue := [], acceptQ := [] }

/-! ### Helper lemmas -/

/-- A data segment whose sequence number fails the in-order check leaves the
connection untouched and sends exactly one immediate data acknowledgment. -/
theorem dn_nsp_data_reject (E : Ext) (st : Scp) (b0 b1 : Nat) (rest : List Nat)
    (hseq : seq_next st.numdat_rcv (b0 % 256 + 256 * (b1 % 256)) = false) :
    dn_nsp_data E st (b0 :: b1 :: rest) = (st, [Ev.dataAck]) := by
  simp [dn_nsp_data, hseq]

/-- An other-data segment whose sequence number fails the in-order check
leaves the connection untouched and sends one other-data acknowledgment. -/
theorem dn_nsp_otherdata_reject (E : Ext) (st : Scp) (b0 b1 : Nat) (rest : List Nat)
    (hseq : seq_next st.numoth_rcv (b0 % 256 + 256 * (b1 % 256)) = false) :
    dn_nsp_otherdata E st (b0 :: b1 :: rest) = (st, [Ev.othAck]) := by
  simp [dn_nsp_otherdata, hseq]

/-- Full characterisation of an accepted other-data segment. -/
theorem dn_nsp_otherdata_accept (E : Ext) (st : Scp) (b0 b1 : Nat) (rest : List Nat)
    (hseq : seq_next st.numoth_rcv (b0 % 256 + 256 * (b1 % 256)) = true)
    (hadm : E.admitOk = true) :
    dn_nsp_otherdata E st (b0 :: b1 :: rest) =
      ({ st with numoth_rcv := (st.numoth_rcv + 1) % 4096,
                 othQueue := st.othQueue ++ [rest], other_report := 0 },
       (if st.skDead then [] else [Ev.dataReady]) ++ [Ev.othAck]) := by
  simp [dn_nsp_otherdata, dn_queue_skb, hseq, hadm, seq_add]

/-- Full characterisation of an accepted data segment. -/
theorem dn_nsp_data_accept (E : Ext) (st : Scp) (b0 b1 : Nat) (rest : List Nat)
    (hseq : seq_next st.numdat_rcv (b0 % 256 + 256 * (b1 % 256)) = true)
    (hadm : E.admitOk = true) :
    dn_nsp_data E st (b0 :: b1 :: rest) =
      ({ st with numdat_rcv := (st.numdat_rcv + 1) % 4096,
                 rcvQueue := st.rcvQueue ++ [rest],
                 flowloc_sw := if st.flowloc_sw = FlowCtl.send ∧ E.congested then
                                 FlowCtl.dontSend else st.flowloc_sw,
                 ackdelay := if E.sendackP (b0 % 256 + 256 * (b1 % 256)) = false
                                ∧ st.ackdelay ≠ 0 then ACKDELAY else st.ackdelay },
       (if st.skDead then [] else [Ev.dataReady])
         ++ (if st.flowloc_sw = FlowCtl.send ∧ E.congested then
               [Ev.schedPending DN_PEND_SW] else [])
         ++ (if E.sendackP (b0 % 256 + 256 * (b1 % 256)) then [Ev.dataAck] else [])) := by
  simp only [dn_nsp_data, dn_queue_skb, hseq, hadm, seq_add, if_true]
  split_ifs <;> simp_all

/-- Advancing a 12-bit cursor makes the previously accepted number fail the
in-order check. -/
theorem seq_next_advance_ne (c s : Nat) (h : seq_next c s = true) :
    seq_next ((c + 1) % 4096) s = false := by
  simp [seq_next] at h ⊢
  omega

/-- `discInitStateStep` never touches the captured disconnect data, the
remote port, the dead flag or the socket state. -/
theorem discInitStateStep_projs (st : Scp) :
    (discInitStateStep st).discdata_status = st.discdata_status ∧
    (discInitStateStep st).discdata_optl = st.discdata_optl ∧
    (discInitStateStep st).discdata = st.discdata ∧
    (discInitStateStep st).addrrem = st.addrrem ∧
    (discInitStateStep st).skDead = st.skDead ∧
    (discInitStateStep st).sockState = st.sockState := by
  cases h : st.state <;> simp [discInitStateStep, h]

/-- `discNotify` only touches the socket state; its events are a single
state-change notification unless the socket is dead. -/
theorem discNotify_projs (st : Scp) :
    (discNotify st).1.discdata_status = st.discdata_status ∧
    (discNotify st).1.discdata_optl = st.discdata_optl ∧
    (discNotify st).1.discdata = st.discdata ∧
    (discNotify st).1.addrrem = st.addrrem ∧
    (discNotify st).1.state = st.state ∧
    (discNotify st).1.skErr = st.skErr ∧
    (discNotify st).1.skShutdown = st.skShutdown ∧
    (discNotify st).2 = (if st.skDead then [] else [Ev.stateChange]) := by
  unfold discNotify
  split_ifs <;> simp_all

/-- When the leading 16-bit word has its top bit clear, the ack processor
consumes nothing and changes nothing. -/
theorem dn_process_ack_skip (E : Ext) (st : Scp) (b0 b1 : Nat) (rest : List Nat)
    (oth : Bool) (hb : (b0 % 256 + 256 * (b1 % 256)) &&& 0x8000 = 0) :
    dn_process_ack E st (b0 :: b1 :: rest) oth = (st, b0 :: b1 :: rest, 0, []) := by
  simp [dn_process_ack, hb]

/-- The CC-to-RUN promotion, characterised when it fires. -/
theorem ccPromote_fires (E : Ext) (st : Scp) (rt : Nat)
    (hcc : st.state = DnState.CC) (hdead : st.skDead = false) :
    ccPromote E st rt =
      ({ st with state := DnState.RUN, skState := SkState.established,
                 segsize_rem := if pathRevert rt then
                     E.segbufsize - (DN_MAX_NSP_DATA_HEADER + 6)
                   else st.segsize_rem }, [Ev.stateChange]) := by
  simp only [ccPromote, hcc, hdead]
  norm_num
  split_ifs <;> rfl

/-- The CC-to-RUN promotion is a no-op unless the connection is in CC with a
live socket. -/
theorem ccPromote_skip (E : Ext) (st : Scp) (rt : Nat)
    (h : st.state = DnState.CC → st.skDead = true) :
    ccPromote E st rt = (st, []) := by
  unfold ccPromote
  rw [if_neg]
  rintro ⟨h1, h2⟩
  exact h2 (h h1)

/-- `dn_ack` only ever touches the two send-window cursors. -/
theorem dn_ack_projs (E : Ext) (st : Scp) (ack : Nat) :
    (dn_ack E st ack).1.state = st.state ∧
    (dn_ack E st ack).1.numdat_rcv = st.numdat_rcv ∧
    (dn_ack E st ack).1.numoth_rcv = st.numoth_rcv ∧
    (dn_ack E st ack).1.rcvQueue = st.rcvQueue ∧
    (dn_ack E st ack).1.othQueue = st.othQueue := by
  simp only [dn_ack]
  split_ifs <;> simp

/-- The ack processor only ever touches the two send-window cursors: the
delivery cursors and both receive queues are untouched. -/
theorem dn_process_ack_projs (E : Ext) (st : Scp) (data : List Nat) (oth : Bool) :
    (dn_process_ack E st data oth).1.state = st.state ∧
    (dn_process_ack E st data oth).1.numdat_rcv = st.numdat_rcv ∧
    (dn_process_ack E st data oth).1.numoth_rcv = st.numoth_rcv ∧
    (dn_process_ack E st data oth).1.rcvQueue = st.rcvQueue ∧
    (dn_process_ack E st data oth).1.othQueue = st.othQueue := by
  have hA := dn_ack_projs
  rcases data with _ | ⟨b0, data⟩
  · simp [dn_process_ack]
  rcases data with _ | ⟨b1, rest⟩
  · simp [dn_process_ack]
  simp only [dn_process_ack]
  rcases rest with _ | ⟨c0, rest⟩
  · split_ifs <;> simp_all
  rcases rest with _ | ⟨c1, rest2⟩
  · split_ifs <;> simp_all
  · split_ifs <;> simp_all <;> split_ifs <;> simp_all

/-- On a non-returned, non-control, non-connect-ack frame whose leading word
is not an ack sub-field, `dn_nsp_backlog_rcv` is the promotion followed by
the payload dispatch with no ack consumption. -/
theorem backlog_rcv_data_frame (E : Ext) (st : Scp) (cb : Cb) (b0 b1 : Nat)
    (rest : List Nat)
    (hrts : cb.rt_flags &&& DN_RT_F_RTS = 0)
    (h1c : cb.nsp_flags &&& 0x1c = 0)
    (h0c : cb.nsp_flags &&& 0x0c = 0)
    (hb15 : (b0 % 256 + 256 * (b1 % 256)) &&& 0x8000 = 0) :
    dn_nsp_backlog_rcv E st ⟨cb, b0 :: b1 :: rest⟩ =
      if (ccPromote E st cb.rt_flags).1.state ≠ DnState.RUN then
        ((ccPromote E st cb.rt_flags).1, (ccPromote E st cb.rt_flags).2)
      else
        ((dn_nsp_data E (ccPromote E st cb.rt_flags).1 (b0 :: b1 :: rest)).1,
         (ccPromote E st cb.rt_flags).2
           ++ (dn_nsp_data E (ccPromote E st cb.rt_flags).1 (b0 :: b1 :: rest)).2) := by
  have h0c8 : ¬ (cb.nsp_flags &&& 0x0c = 0x08) := by rw [h0c]; decide
  have h24 : ¬ (cb.nsp_flags = 0x24) := fun h => by
    rw [h] at h1c; exact absurd h1c (by decide)
  have h10 : ¬ (cb.nsp_flags = 0x10) := fun h => by
    rw [h] at h1c; exact absurd h1c (by decide)
  have h30 : ¬ (cb.nsp_flags = 0x30) := fun h => by
    rw [h] at h1c; exact absurd h1c (by decide)
  rcases hP : ccPromote E st cb.rt_flags with ⟨P1, P2⟩
  simp only [dn_nsp_backlog_rcv, hP]
  rw [if_neg (by simp [hrts]), if_neg h0c8, if_neg h24]
  rw [dn_process_ack_skip E P1 b0 b1 rest _ hb15]
  rw [if_pos h0c, if_neg h10, if_neg h30]
  by_cases hrun : P1.state = DnState.RUN <;> simp [hrun]

/-! ### Claim theorems -/

/-- Claim C1, counterexample: a data segment whose sequence number (7) is out
of order for the cursor (5) is dropped without any state change, yet the Data
channel DOES emit an immediate data acknowledgment for it — refuting the
claim that no data acknowledgment is emitted for a sequence violation. -/
theorem C1_counterexample :
    (dn_nsp_data E0 scp0 [7, 0, 1, 2]).2 = [Ev.dataAck] ∧
    (dn_nsp_data E0 scp0 [7, 0, 1, 2]).1 = scp0 := by
  constructor <;> rfl

/-- Claim C1 (amended): every data segment whose sequence number is a
sequence violation (out of order or duplicate) is dropped without advancing
any state, and the Data channel emits exactly one immediate data
acknowledgment for it — the same single acknowledgment whether it is an
out-of-order or an already-processed duplicate segment. -/
theorem C1_seq_violation_drops_and_acks (E : Ext) (st : Scp) (b0 b1 : Nat)
    (rest : List Nat)
    (hseq : seq_next st.numdat_rcv (b0 % 256 + 256 * (b1 % 256)) = false) :
    dn_nsp_data E st (b0 :: b1 :: rest) = (st, [Ev.dataAck]) :=
  dn_nsp_data_reject E st b0 b1 rest hseq

theorem C1_witness :
    dn_nsp_data E0 scp0 [7, 0, 1, 2] = (scp0, [Ev.dataAck]) :=
  C1_seq_violation_drops_and_acks E0 scp0 7 0 [1, 2] (by decide)

/-- Claim C2: a 4-byte link-service frame whose flags byte has any of its
upper five bits set is dropped with no connection state change at all — the
other-data sequence cursor is not advanced, no credit counter or flow switch
is updated, and no send resumption or acknowledgment is emitted. -/
theorem C2_malformed_linkservice_no_state_change (E : Ext) (st : Scp)
    (b0 b1 b2 b3 : Nat) (hmal : (b2 % 256) &&& 0xf8 ≠ 0) :
    dn_nsp_linkservice E st [b0, b1, b2, b3] = (st, []) := by
  simp [dn_nsp_linkservice, hmal]

theorem C2_witness :
    dn_nsp_linkservice E0 scp0 [3, 0, 0xf9, 1] = (scp0, []) :=
  C2_malformed_linkservice_no_state_change E0 scp0 3 0 0xf9 1 (by decide)

/-- Claim C3, counterexample: a connect-request whose destination-username
length byte (10) exceeds the remaining payload (0 bytes) yields the
destination-username reason code NSP_REASON_ID, which is NOT the
"format-error" (image-data-field overflow) code the claim demands. -/
theorem C3_counterexample :
    dn_find_listener [0, 0, 0, 0, 0, 0, 0, 0, 0, 1, 0, 10] = Except.error NSP_REASON_ID ∧
    NSP_REASON_ID ≠ NSP_REASON_IOV := by
  refine ⟨rfl, by decide⟩

/-- Claim C3 (amended): every inbound connect-request whose
destination-username length byte exceeds the remaining payload fails
validation with the destination-username-error reason code (`NSP_REASON_ID`,
row 1 of `ci_err_table`), with zero side effects on any connection state
(the validator is a pure function of the payload). -/
theorem C3_dst_username_overflow (h0 h1 h2 h3 h4 h5 h6 h7 h8 t l : Nat)
    (name : List Nat) (hl : name.length < l % 256) :
    dn_find_listener
        (h0 :: h1 :: h2 :: h3 :: h4 :: h5 :: h6 :: h7 :: h8 :: 1 :: t :: l :: name)
      = Except.error NSP_REASON_ID := by
  simp [dn_find_listener, dn_username2sockaddr, ciErrReason, hl]

theorem C3_witness :
    dn_find_listener [9, 9, 9, 9, 9, 9, 9, 9, 9, 1, 0, 3, 65]
      = Except.error NSP_REASON_ID :=
  C3_dst_username_overflow 9 9 9 9 9 9 9 9 9 0 3 [65] (by decide)

/-- Claim C4, counterexample: a connection in CI whose remote port was NOT
already known (`addrrem = 0`) receives a disconnect-initiate carrying source
port 9, and exactly one disconnect-confirm is sent anyway — refuting the
claim that the reply is sent if and only if a remote port was already
known. -/
theorem C4_counterexample :
    ({ scp0 with state := DnState.CI } : Scp).addrrem = 0 ∧
    (dn_nsp_disc_init E0 { scp0 with state := DnState.CI } ⟨0x38, 0, 9, 7⟩ [0, 0]).2.count
        (Ev.sendDisc NSP_DISCCONF NSP_REASON_DC) = 1 := by
  refine ⟨rfl, rfl⟩

/-- Claim C4 (amended): a disconnect-initiate carrying at least a 2-byte
reason captures the reason code and the optional (at most 16-byte) data into
the disconnect-data fields; the state transitions CI/CD to RJ with a
connection-refused error, RUN to DN with both shutdown directions set, and
DI to DIC; and exactly one disconnect-confirm carrying the
disconnect-complete reason is sent if and only if the frame's source port —
stored as the remote port — is nonzero. -/
theorem C4_disc_init_transitions (E : Ext) (st : Scp) (cb : Cb) (r0 r1 : Nat)
    (rest : List Nat) :
    ((dn_nsp_disc_init E st cb (r0 :: r1 :: rest)).1.discdata_status
        = r0 % 256 + 256 * (r1 % 256)) ∧
    (∀ d dtl, rest = d :: dtl → d % 256 ≤ 16 → d % 256 ≤ rest.length →
        (dn_nsp_disc_init E st cb (r0 :: r1 :: rest)).1.discdata_optl = d % 256 ∧
        (dn_nsp_disc_init E st cb (r0 :: r1 :: rest)).1.discdata = dtl.take (d % 256)) ∧
    (st.state = DnState.CI ∨ st.state = DnState.CD →
        (dn_nsp_disc_init E st cb (r0 :: r1 :: rest)).1.state = DnState.RJ ∧
        (dn_nsp_disc_init E st cb (r0 :: r1 :: rest)).1.skErr = ECONNREFUSED) ∧
    (st.state = DnState.RUN →
        (dn_nsp_disc_init E st cb (r0 :: r1 :: rest)).1.state = DnState.DN ∧
        (dn_nsp_disc_init E st cb (r0 :: r1 :: rest)).1.skShutdown
            = st.skShutdown ||| SHUTDOWN_MASK) ∧
    (st.state = DnState.DI →
        (dn_nsp_disc_init E st cb (r0 :: r1 :: rest)).1.state = DnState.DIC) ∧
    ((dn_nsp_disc_init E st cb (r0 :: r1 :: rest)).2.count
        (Ev.sendDisc NSP_DISCCONF NSP_REASON_DC) = if cb.src_port ≠ 0 then 1 else 0) := by
  have hN := discNotify_projs
  have hS := discInitStateStep_projs
  refine ⟨?_, ?_, ?_, ?_, ?_, ?_⟩
  · simp only [dn_nsp_disc_init]
    cases hod : optData rest <;> simp [hod, hN, hS]
  · rintro d dtl rfl hle hlen
    simp only [dn_nsp_disc_init]
    rw [show optData (d :: dtl) = some (d % 256, dtl.take (d % 256)) from by
      simp only [optData]; rw [if_pos ⟨hle, hlen⟩]]
    simp [hN, hS]
  · intro hst
    simp only [dn_nsp_disc_init]
    have key : ∀ u : Scp, u.state = st.state →
        u.state = DnState.CI ∨ u.state = DnState.CD →
        (discInitStateStep u).state = DnState.RJ ∧
        (discInitStateStep u).skErr = ECONNREFUSED := by
      rintro u hu (h | h) <;> simp [discInitStateStep, h]
    cases hod : optData rest <;>
      · constructor
        · rw [hN _ |>.2.2.2.2.1]
          exact (key _ (by simp [hod]) (by simp [hod, hst])).1
        · rw [hN _ |>.2.2.2.2.2.1]
          exact (key _ (by simp [hod]) (by simp [hod, hst])).2
  · intro hst
    simp only [dn_nsp_disc_init]
    have key : ∀ u : Scp, u.state = DnState.RUN →
        (discInitStateStep u).state = DnState.DN ∧
        (discInitStateStep u).skShutdown = u.skShutdown ||| SHUTDOWN_MASK := by
      intro u h; simp [discInitStateStep, h]
    cases hod : optData rest <;>
      · constructor
        · rw [hN _ |>.2.2.2.2.1]
          exact (key _ (by simp [hod, hst])).1
        · rw [hN _ |>.2.2.2.2.2.2.1]
          rw [(key _ (by simp [hod, hst])).2]
          try simp [hod]
  · intro hst
    simp only [dn_nsp_disc_init]
    have key : ∀ u : Scp, u.state = DnState.DI →
        (discInitStateStep u).state = DnState.DIC := by
      intro u h; simp [discInitStateStep, h]
    cases hod : optData rest <;>
      · rw [hN _ |>.2.2.2.2.1]
        exact key _ (by simp [hod, hst])
  · simp only [dn_nsp_disc_init]
    cases hod : optData rest <;>
      · rw [hN _ |>.2.2.2.2.2.2.2]
        rw [hN _ |>.2.2.2.1, hS _ |>.2.2.2.1]
        simp [hod, hS _ |>.2.2.2.2.1]
        by_cases hp : cb.src_port = 0 <;> by_cases hd : st.skDead <;>
          simp [hp, hd, List.count_append]

theorem C4_witness :
    (dn_nsp_disc_init E0 { scp0 with state := DnState.RUN } ⟨0x38, 0, 9, 7⟩
        (5 :: 0 :: [1, 0xab])).1.discdata_status = 5 % 256 + 256 * (0 % 256) ∧
    (dn_nsp_disc_init E0 { scp0 with state := DnState.RUN } ⟨0x38, 0, 9, 7⟩
        (5 :: 0 :: [1, 0xab])).1.discdata_optl = 1 % 256 ∧
    (dn_nsp_disc_init E0 { scp0 with state := DnState.RUN } ⟨0x38, 0, 9, 7⟩
        (5 :: 0 :: [1, 0xab])).1.state = DnState.DN ∧
    (dn_nsp_disc_init E0 { scp0 with state := DnState.RUN } ⟨0x38, 0, 9, 7⟩
        (5 :: 0 :: [1, 0xab])).2.count (Ev.sendDisc NSP_DISCCONF NSP_REASON_DC)
      = if (9 : Nat) ≠ 0 then 1 else 0 := by
  have h := C4_disc_init_transitions E0 { scp0 with state := DnState.RUN }
    ⟨0x38, 0, 9, 7⟩ 5 0 [1, 0xab]
  exact ⟨h.1, (h.2.1 1 [0xab] rfl (by decide) (by decide)).1,
         (h.2.2.2.1 rfl).1, h.2.2.2.2.2⟩

/-- Claim C5: each delivery engine accepts a segment iff its sequence number
equals the channel's receive cursor exactly; on acceptance the cursor
becomes n+1 modulo 4096 and the payload is enqueued exactly once; replaying
the same segment afterwards is rejected, changes no state, and does not
re-enqueue; a mismatched segment changes no state at all. -/
theorem C5_strict_in_order_delivery (E : Ext) (st : Scp) (b0 b1 : Nat)
    (rest : List Nat) (hadm : E.admitOk = true) :
    ((seq_next st.numdat_rcv (b0 % 256 + 256 * (b1 % 256)) = true →
        (dn_nsp_data E st (b0 :: b1 :: rest)).1.numdat_rcv
            = ((b0 % 256 + 256 * (b1 % 256)) + 1) % 4096 ∧
        (dn_nsp_data E st (b0 :: b1 :: rest)).1.rcvQueue = st.rcvQueue ++ [rest] ∧
        (dn_nsp_data E (dn_nsp_data E st (b0 :: b1 :: rest)).1 (b0 :: b1 :: rest)).1
            = (dn_nsp_data E st (b0 :: b1 :: rest)).1) ∧
      (seq_next st.numdat_rcv (b0 % 256 + 256 * (b1 % 256)) = false →
        (dn_nsp_data E st (b0 :: b1 :: rest)).1 = st)) ∧
    ((seq_next st.numoth_rcv (b0 % 256 + 256 * (b1 % 256)) = true →
        (dn_nsp_otherdata E st (b0 :: b1 :: rest)).1.numoth_rcv
            = ((b0 % 256 + 256 * (b1 % 256)) + 1) % 4096 ∧
        (dn_nsp_otherdata E st (b0 :: b1 :: rest)).1.othQueue = st.othQueue ++ [rest] ∧
        (dn_nsp_otherdata E (dn_nsp_otherdata E st (b0 :: b1 :: rest)).1
            (b0 :: b1 :: rest)).1
            = (dn_nsp_otherdata E st (b0 :: b1 :: rest)).1) ∧
      (seq_next st.numoth_rcv (b0 % 256 + 256 * (b1 % 256)) = false →
        (dn_nsp_otherdata E st (b0 :: b1 :: rest)).1 = st)) := by
  refine ⟨⟨?_, ?_⟩, ?_, ?_⟩
  · intro hseq
    have hacc := dn_nsp_data_accept E st b0 b1 rest hseq hadm
    have hcur : (st.numdat_rcv + 1) % 4096
        = ((b0 % 256 + 256 * (b1 % 256)) + 1) % 4096 := by
      simp [seq_next] at hseq
      omega
    have hne : seq_next ((st.numdat_rcv + 1) % 4096) (b0 % 256 + 256 * (b1 % 256)) = false :=
      seq_next_advance_ne _ _ hseq
    refine ⟨by rw [hacc, ← hcur], by rw [hacc], ?_⟩
    have h2 : (dn_nsp_data E st (b0 :: b1 :: rest)).1.numdat_rcv
        = (st.numdat_rcv + 1) % 4096 := by rw [hacc]
    have := dn_nsp_data_reject E (dn_nsp_data E st (b0 :: b1 :: rest)).1 b0 b1 rest
      (by rw [h2]; exact hne)
    rw [this]
  · intro hseq
    rw [dn_nsp_data_reject E st b0 b1 rest hseq]
  · intro hseq
    have hacc := dn_nsp_otherdata_accept E st b0 b1 rest hseq hadm
    have hcur : (st.numoth_rcv + 1) % 4096
        = ((b0 % 256 + 256 * (b1 % 256)) + 1) % 4096 := by
      simp [seq_next] at hseq
      omega
    have hne : seq_next ((st.numoth_rcv + 1) % 4096) (b0 % 256 + 256 * (b1 % 256)) = false :=
      seq_next_advance_ne _ _ hseq
    refine ⟨by rw [hacc, ← hcur], by rw [hacc], ?_⟩
    have h2 : (dn_nsp_otherdata E st (b0 :: b1 :: rest)).1.numoth_rcv
        = (st.numoth_rcv + 1) % 4096 := by rw [hacc]
    have := dn_nsp_otherdata_reject E (dn_nsp_otherdata E st (b0 :: b1 :: rest)).1 b0 b1 rest
      (by rw [h2]; exact hne)
    rw [this]
  · intro hseq
    rw [dn_nsp_otherdata_reject E st b0 b1 rest hseq]

theorem C5_witness :
    (dn_nsp_data E0 scp0 [5, 0, 9]).1.numdat_rcv
        = ((5 % 256 + 256 * (0 % 256)) + 1) % 4096 ∧
    (dn_nsp_data E0 scp0 [5, 0, 9]).1.rcvQueue = scp0.rcvQueue ++ [[9]] ∧
    (dn_nsp_data E0 (dn_nsp_data E0 scp0 [5, 0, 9]).1 [5, 0, 9]).1
        = (dn_nsp_data E0 scp0 [5, 0, 9]).1 ∧
    (dn_nsp_otherdata E0 scp0 [5, 0, 9]).1 = scp0 := by
  have h := C5_strict_in_order_delivery E0 scp0 5 0 [9] (by decide)
  have h1 := h.1.1 (by decide)
  exact ⟨h1.1, h1.2.1, h1.2.2, h.2.2 (by decide)⟩

/-- Claim C6: on a frame with two present ack sub-fields, exactly two leading
bytes are consumed per present sub-field (four in total) regardless of each
field's validity, and when the first is a data-channel ack strictly newer
than the data send-window cursor while the second is an other-channel ack
not newer than the other cursor, the data cursor moves to the new value and
the other cursor is unchanged. -/
theorem C6_two_ack_subfields (E : Ext) (st : Scp) (a0 a1 b0 b1 : Nat) (rest : List Nat)
    (h1 : (a0 % 256 + 256 * (a1 % 256)) &&& 0x8000 ≠ 0)
    (h2 : (b0 % 256 + 256 * (b1 % 256)) &&& 0x8000 ≠ 0) :
    (dn_process_ack E st (a0 :: a1 :: b0 :: b1 :: rest) false).2.2.1 = 4 ∧
    (dn_process_ack E st (a0 :: a1 :: b0 :: b1 :: rest) false).2.1 = rest ∧
    ((a0 % 256 + 256 * (a1 % 256)) &&& 0x4000 = 0 →
     ((a0 % 256 + 256 * (a1 % 256)) >>> 12) &&& 3 = 0 →
     dn_after (a0 % 256 + 256 * (a1 % 256)) st.ackrcv_dat = true →
     (b0 % 256 + 256 * (b1 % 256)) &&& 0x4000 = 0 →
     ((b0 % 256 + 256 * (b1 % 256)) >>> 12) &&& 3 = 2 →
     dn_after (b0 % 256 + 256 * (b1 % 256)) st.ackrcv_oth = false →
     (dn_process_ack E st (a0 :: a1 :: b0 :: b1 :: rest) false).1.ackrcv_dat
         = (a0 % 256 + 256 * (a1 % 256)) % 4096 ∧
     (dn_process_ack E st (a0 :: a1 :: b0 :: b1 :: rest) false).1.ackrcv_oth
         = st.ackrcv_oth) := by
  refine ⟨?_, ?_, ?_⟩
  · simp only [dn_process_ack, if_pos h1, if_pos h2]
  · simp only [dn_process_ack, if_pos h1, if_pos h2]
  · intro hv1 ht1 ha1 hv2 ht2 ha2
    simp [dn_process_ack, h1, h2, hv1, hv2, dn_ack, ht1, ht2, ha1, ha2]

theorem C6_witness :
    (dn_process_ack E0 scp0 [20, 0x80, 5, 0xa0, 77] false).2.2.1 = 4 ∧
    (dn_process_ack E0 scp0 [20, 0x80, 5, 0xa0, 77] false).2.1 = [77] ∧
    (dn_process_ack E0 scp0 [20, 0x80, 5, 0xa0, 77] false).1.ackrcv_dat
        = (20 % 256 + 256 * (0x80 % 256)) % 4096 ∧
    (dn_process_ack E0 scp0 [20, 0x80, 5, 0xa0, 77] false).1.ackrcv_oth
        = scp0.ackrcv_oth := by
  have h := C6_two_ack_subfields E0 scp0 20 0x80 5 0xa0 [77] (by decide) (by decide)
  have h3 := h.2.2 (by decide) (by decide) (by decide) (by decide) (by decide) (by decide)
  exact ⟨h.1, h.2.1, h3.1, h3.2⟩

/-- Claim C7: the send-window cursors only ever move forward — an ack
sub-field that is a NAK changes neither cursor and invokes no pruning, and
an ack not strictly newer than its channel's cursor leaves the connection
completely unchanged and invokes no send-queue pruning. -/
theorem C7_ack_cursor_monotone (E : Ext) (st : Scp) (ack : Nat) :
    (((ack >>> 12) &&& 3 = 1 ∨ (ack >>> 12) &&& 3 = 3) → dn_ack E st ack = (st, [])) ∧
    ((ack >>> 12) &&& 3 = 0 → dn_after ack st.ackrcv_dat = false →
        dn_ack E st ack = (st, [])) ∧
    ((ack >>> 12) &&& 3 = 2 → dn_after ack st.ackrcv_oth = false →
        dn_ack E st ack = (st, [])) := by
  refine ⟨?_, ?_, ?_⟩
  · rintro (h | h) <;> simp [dn_ack, h]
  · intro h hafter
    simp [dn_ack, h, hafter]
  · intro h hafter
    simp [dn_ack, h, hafter]

theorem C7_witness :
    dn_ack E0 scp0 0x1005 = (scp0, []) ∧ dn_ack E0 scp0 8 = (scp0, []) :=
  ⟨(C7_ack_cursor_monotone E0 scp0 0x1005).1 (Or.inl (by decide)),
   (C7_ack_cursor_monotone E0 scp0 8).2.1 (by decide) (by decide)⟩

/-- Claim C8: for a well-formed link-service frame accepted by the
other-data sequence check: the resume-sending sub-type sets the remote flow
switch to SEND and invokes the outbound sender exactly once; request-count
with a positive credit byte adds it to the remote data credit (strictly
increasing it absent wraparound), and with a negative credit byte decreases
it exactly when the remote flow-control mode is segment-count-based and the
decrement stays above zero; an interrupt-selector request only ever adjusts
the other-channel credit upward, and only for positive values. -/
theorem C8_linkservice_flow_semantics (E : Ext) (st : Scp) (b0 b1 ls fc : Nat)
    (hls : ls < 256) (hfc : fc < 256) (hform : ls &&& 0xf8 = 0)
    (hseq : seq_next st.numoth_rcv (b0 % 256 + 256 * (b1 % 256)) = true) :
    (ls &&& 0x04 = 0 → ls &&& 0x03 = 2 →
        (dn_nsp_linkservice E st [b0, b1, ls, fc]).1.flowrem_sw = FlowCtl.send ∧
        (dn_nsp_linkservice E st [b0, b1, ls, fc]).2.count Ev.output = 1) ∧
    (ls &&& 0x04 = 0 → ls &&& 0x03 = 0 → 0 < fc → fc < 128 →
        (dn_nsp_linkservice E st [b0, b1, ls, fc]).1.flowrem_dat
            = (st.flowrem_dat + fc) % 65536 ∧
        (st.flowrem_dat + fc < 65536 →
            st.flowrem_dat < (dn_nsp_linkservice E st [b0, b1, ls, fc]).1.flowrem_dat)) ∧
    (ls &&& 0x04 = 0 → ls &&& 0x03 = 0 → 128 ≤ fc →
        (dn_nsp_linkservice E st [b0, b1, ls, fc]).1.flowrem_dat
            = if 256 - fc < st.flowrem_dat
                 ∧ st.services_rem &&& NSP_FC_MASK = NSP_FC_SCMC
              then st.flowrem_dat - (256 - fc) else st.flowrem_dat) ∧
    (ls &&& 0x04 = 4 →
        ((dn_nsp_linkservice E st [b0, b1, ls, fc]).1.flowrem_oth
            = if 0 < fc ∧ fc < 128 then (st.flowrem_oth + fc) % 65536
              else st.flowrem_oth) ∧
        (st.flowrem_oth + fc < 65536 →
            st.flowrem_oth ≤ (dn_nsp_linkservice E st [b0, b1, ls, fc]).1.flowrem_oth)) := by
  have hls' : ls % 256 = ls := Nat.mod_eq_of_lt hls
  have hfc' : fc % 256 = fc := Nat.mod_eq_of_lt hfc
  refine ⟨?_, ?_, ?_, ?_⟩
  · intro h04 h03
    simp only [dn_nsp_linkservice, hls', hfc', hform, hseq]
    simp [h04, h03]
    by_cases hd : st.skDead <;> simp [hd, List.count_append]
  · intro h04 h03 hpos hlt
    have hn : ¬ (128 ≤ fc) := by omega
    simp only [dn_nsp_linkservice, hls', hfc', hform, hseq]
    simp [h04, h03, hn, hpos]
    omega
  · intro h04 h03 hge
    simp only [dn_nsp_linkservice, hls', hfc', hform, hseq]
    simp [h04, h03, hge]
    split_ifs <;> rfl
  · intro h04
    have h4 : ¬ (ls &&& 0x04 = 0) := by rw [h04]; decide
    constructor
    · simp only [dn_nsp_linkservice, hls', hfc', hform, hseq]
      simp [h4]
      split_ifs <;> simp_all
    · intro hnw
      simp only [dn_nsp_linkservice, hls', hfc', hform, hseq]
      simp [h4]
      split_ifs <;> simp_all <;> omega

theorem C8_witness :
    (dn_nsp_linkservice E0 scp0 [3, 0, 2, 0]).1.flowrem_sw = FlowCtl.send ∧
    (dn_nsp_linkservice E0 scp0 [3, 0, 2, 0]).2.count Ev.output = 1 :=
  (C8_linkservice_flow_semantics E0 scp0 3 0 2 0 (by decide) (by decide)
    (by decide) (by decide)).1 (by decide) (by decide)

/-- Claim C9: a connection in CC receiving a data frame whose sequence
number equals the expected data cursor enqueues the payload, promotes to RUN
(applying the path-quality segment-size reversion exactly when the routing
header is short or the Intra-Ethernet bit is clear), leaves the local port
and the negotiated services/info capabilities unchanged, and emits one data
acknowledgment per the data-ack delay policy. -/
theorem C9_cc_data_frame_promotes_to_run (E : Ext) (st : Scp) (cb : Cb)
    (b0 b1 : Nat) (rest : List Nat)
    (hcc : st.state = DnState.CC) (hdead : st.skDead = false)
    (hrts : cb.rt_flags &&& DN_RT_F_RTS = 0)
    (h1c : cb.nsp_flags &&& 0x1c = 0)
    (h0c : cb.nsp_flags &&& 0x0c = 0)
    (hb15 : (b0 % 256 + 256 * (b1 % 256)) &&& 0x8000 = 0)
    (hseq : seq_next st.numdat_rcv (b0 % 256 + 256 * (b1 % 256)) = true)
    (hadm : E.admitOk = true) :
    (dn_nsp_backlog_rcv E st ⟨cb, b0 :: b1 :: rest⟩).1.state = DnState.RUN ∧
    (dn_nsp_backlog_rcv E st ⟨cb, b0 :: b1 :: rest⟩).1.rcvQueue
        = st.rcvQueue ++ [rest] ∧
    (dn_nsp_backlog_rcv E st ⟨cb, b0 :: b1 :: rest⟩).1.numdat_rcv
        = (st.numdat_rcv + 1) % 4096 ∧
    (dn_nsp_backlog_rcv E st ⟨cb, b0 :: b1 :: rest⟩).1.addrloc = st.addrloc ∧
    (dn_nsp_backlog_rcv E st ⟨cb, b0 :: b1 :: rest⟩).1.services_rem = st.services_rem ∧
    (dn_nsp_backlog_rcv E st ⟨cb, b0 :: b1 :: rest⟩).1.info_rem = st.info_rem ∧
    (dn_nsp_backlog_rcv E st ⟨cb, b0 :: b1 :: rest⟩).1.segsize_rem
        = (if pathRevert cb.rt_flags then E.segbufsize - (DN_MAX_NSP_DATA_HEADER + 6)
           else st.segsize_rem) ∧
    (dn_nsp_backlog_rcv E st ⟨cb, b0 :: b1 :: rest⟩).2.count Ev.dataAck
        = (if E.sendackP (b0 % 256 + 256 * (b1 % 256)) then 1 else 0) := by
  have hacc := dn_nsp_data_accept E
      ({ st with state := DnState.RUN, skState := SkState.established,
                 segsize_rem := if pathRevert cb.rt_flags then
                     E.segbufsize - (DN_MAX_NSP_DATA_HEADER + 6)
                   else st.segsize_rem } : Scp) b0 b1 rest (by simpa using hseq) hadm
  rw [backlog_rcv_data_frame E st cb b0 b1 rest hrts h1c h0c hb15,
      ccPromote_fires E st cb.rt_flags hcc hdead]
  simp only []
  rw [if_neg (by simp)]
  rw [hacc]
  refine ⟨rfl, rfl, rfl, rfl, rfl, rfl, rfl, ?_⟩
  by_cases hsa : E.sendackP (b0 % 256 + 256 * (b1 % 256)) <;>
    by_cases hcg : E.congested <;>
      simp [hsa, hcg, hdead, List.count_append, List.count_cons] <;>
        split_ifs <;> simp

theorem C9_witness :
    (dn_nsp_backlog_rcv E0 { scp0 with state := DnState.CC }
        ⟨⟨0x60, 0x02, 9, 7⟩, [5, 0, 9, 9]⟩).1.state = DnState.RUN ∧
    (dn_nsp_backlog_rcv E0 { scp0 with state := DnState.CC }
        ⟨⟨0x60, 0x02, 9, 7⟩, [5, 0, 9, 9]⟩).1.numdat_rcv
      = (({ scp0 with state := DnState.CC } : Scp).numdat_rcv + 1) % 4096 ∧
    (dn_nsp_backlog_rcv E0 { scp0 with state := DnState.CC }
        ⟨⟨0x60, 0x02, 9, 7⟩, [5, 0, 9, 9]⟩).2.count Ev.dataAck
      = (if E0.sendackP (5 % 256 + 256 * (0 % 256)) then 1 else 0) := by
  have h := C9_cc_data_frame_promotes_to_run E0 { scp0 with state := DnState.CC }
    ⟨0x60, 0x02, 9, 7⟩ 5 0 [9, 9] rfl rfl (by decide) (by decide) (by decide)
    (by decide) (by decide) (by decide)
  exact ⟨h.1, h.2.2.1, h.2.2.2.2.2.2.2⟩

/-- Claim C10: a non-control, non-connect-ack frame arriving while the
connection is not in RUN (after the possible CC-to-RUN promotion, which
needs a live socket) still has its piggy-backed acknowledgment sub-fields
processed — the resulting connection is exactly the ack processor's output —
but its payload is discarded: neither delivery cursor moves and neither
receive queue grows. -/
theorem C10_nonrun_payload_discarded (E : Ext) (st : Scp) (cb : Cb) (data : List Nat)
    (hrts : cb.rt_flags &&& DN_RT_F_RTS = 0)
    (hctl : cb.nsp_flags &&& 0x0c ≠ 0x08)
    (hca : cb.nsp_flags ≠ 0x24)
    (hnr : st.state ≠ DnState.RUN)
    (hncc : st.state = DnState.CC → st.skDead = true) :
    (dn_nsp_backlog_rcv E st ⟨cb, data⟩).1
        = (dn_process_ack E st data (otherFlag cb.nsp_flags)).1 ∧
    (dn_nsp_backlog_rcv E st ⟨cb, data⟩).2
        = (dn_process_ack E st data (otherFlag cb.nsp_flags)).2.2.2 ∧
    (dn_nsp_backlog_rcv E st ⟨cb, data⟩).1.numdat_rcv = st.numdat_rcv ∧
    (dn_nsp_backlog_rcv E st ⟨cb, data⟩).1.numoth_rcv = st.numoth_rcv ∧
    (dn_nsp_backlog_rcv E st ⟨cb, data⟩).1.rcvQueue = st.rcvQueue ∧
    (dn_nsp_backlog_rcv E st ⟨cb, data⟩).1.othQueue = st.othQueue := by
  have hprojs := dn_process_ack_projs E st data (otherFlag cb.nsp_flags)
  have key : dn_nsp_backlog_rcv E st ⟨cb, data⟩
      = ((dn_process_ack E st data (otherFlag cb.nsp_flags)).1,
         (dn_process_ack E st data (otherFlag cb.nsp_flags)).2.2.2) := by
    simp only [dn_nsp_backlog_rcv, ccPromote_skip E st cb.rt_flags hncc]
    rw [if_neg (by simp [hrts]), if_neg hctl, if_neg hca]
    by_cases h0 : cb.nsp_flags &&& 0x0c = 0
    · rw [if_pos h0, if_pos (by rw [hprojs.1]; exact hnr)]
      simp
    · rw [if_neg h0]
      simp
  exact ⟨by rw [key], by rw [key], by rw [key]; exact hprojs.2.1,
         by rw [key]; exact hprojs.2.2.1, by rw [key]; exact hprojs.2.2.2.1,
         by rw [key]; exact hprojs.2.2.2.2⟩

theorem C10_witness :
    (dn_nsp_backlog_rcv E0 { scp0 with state := DnState.CI }
        ⟨⟨0x60, 0, 9, 7⟩, [5, 0, 9]⟩).1
      = (dn_process_ack E0 { scp0 with state := DnState.CI } [5, 0, 9]
          (otherFlag 0x60)).1 ∧
    (dn_nsp_backlog_rcv E0 { scp0 with state := DnState.CI }
        ⟨⟨0x60, 0, 9, 7⟩, [5, 0, 9]⟩).1.numdat_rcv
      = ({ scp0 with state := DnState.CI } : Scp).numdat_rcv ∧
    (dn_nsp_backlog_rcv E0 { scp0 with state := DnState.CI }
        ⟨⟨0x60, 0, 9, 7⟩, [5, 0, 9]⟩).1.rcvQueue
      = ({ scp0 with state := DnState.CI } : Scp).rcvQueue := by
  have h := C10_nonrun_payload_discarded E0 { scp0 with state := DnState.CI }
    ⟨0x60, 0, 9, 7⟩ [5, 0, 9] (by decide) (by decide) (by decide)
    (by decide) (by decide)
  exact ⟨h.1, h.2.2.1, h.2.2.2.2.1⟩

end DECnetNSP
